import Mathlib

/-!
Verification development for the dummygen backend (src/backend).

Shallow embedding of the field-registry-driven generation engine:
  * `FIELD_REGISTRY` and `generate_field_value` embed src/backend/fields.py;
  * `generate_data` embeds src/backend/generator.py.

Randomness model.  The program uses two distinct mutable random sources:
  * faker's shared generator (`Faker.seed(s)` re-initializes it; every
    `fake.<method>()` call consumes from it), modelled by the
    `fakerGen`/`fakerPos` components of `RState`;
  * Python's process-global `random` module instance, used only by
    `random.choice` in the enum special case (fields.py line 586) and NOT
    touched by `Faker.seed`, modelled by `globalGen`/`globalPos`.
Each source is an abstract deterministic stream `Nat → Nat` with a cursor;
drawing yields the value at the cursor and advances it.  `Faker.seed(s)`
replaces the faker stream by a pure function of the seed
(`fakerSeedGen`) and resets its cursor, which is exactly the observable
content of reseeding a PRNG.  Faker's internal value construction
(calendar arithmetic, text corpora, ...) is abstracted to canonical values
consuming one draw, but the argument-validation and rejection behaviour of
the underlying generators (unexpected keyword arguments, inverted ranges
in `random_int` / `date_of_birth`), which the repository's control flow
depends on, is modelled faithfully.
-/

/-- Scalar constants appearing inside registry argument lists (strings and
integers, as used by the `elements` lists in FIELD_REGISTRY). -/
inductive Scalar where
  | s (v : String)
  | i (n : Int)
deriving DecidableEq, Repr

/-- Constraint / argument values as they reach the engine from JSON:
strings, integers, Python `None` (`null`), and lists of scalars. -/
inductive CVal where
  | str (v : String)
  | int (n : Int)
  | null
  | list (xs : List Scalar)
deriving DecidableEq, Repr

/-- Python truthiness of a constraint value (`if constraints['domain']:`-style
tests): empty string, zero, `None` and the empty list are falsy. -/
def CVal.truthy : CVal → Bool
  | .str v => !v.isEmpty
  | .int n => n != 0
  | .null => false
  | .list xs => !xs.isEmpty

/-- Generated values.  `vDate` is a Python `date`/`datetime` object
abstracted to its single observable used by the spec: the implied age (for
`date_of_birth`) or a raw draw (for the other date methods).  `vIsoDate`
is the result of calling `.isoformat()` on such an object: an ISO-8601
string, which determines and is determined by the underlying date, hence
carries the same number. -/
inductive Value where
  | vStr (s : String)
  | vInt (n : Int)
  | vBool (b : Bool)
  | vFloat (raw : Nat)
  | vDate (n : Int)
  | vIsoDate (n : Int)
deriving DecidableEq, Repr

/-- The `hasattr(result, 'isoformat')` conversion at fields.py lines
601-602 and 607-608: date/datetime objects become ISO strings, everything
else passes through unchanged. -/
def isoConvert : Value → Value
  | .vDate n => .vIsoDate n
  | v => v

/-- The age implied by a generated date-of-birth value (whether still a
date object or already ISO-formatted). -/
def impliedAge : Value → Option Int
  | .vDate n => some n
  | .vIsoDate n => some n
  | _ => none

/-- Exceptions crossing `generate_field_value`: the `ValueError` raised at
fields.py line 565 for unknown field types, and `TypeError`/`ValueError`
raised by the underlying faker generators. -/
inductive GenError where
  | unknownFieldType (ftype : String)
  | typeError (msg : String)
  | valueError (msg : String)
deriving DecidableEq, Repr

/-- The `str(e)` of the exception, as surfaced by server.py into the
`Generation error: ...` detail.  For unknown field types this is the
f-string at fields.py line 565. -/
def errorMessage : GenError → String
  | .unknownFieldType t => "Unknown field type: " ++ t
  | .typeError m => m
  | .valueError m => m

/-- Process-wide random state: the shared faker generator stream (reset by
`Faker.seed`) and the stdlib `random` module's global instance (never
reset by this program). -/
structure RState where
  fakerGen : Nat → Nat
  fakerPos : Nat
  globalGen : Nat → Nat
  globalPos : Nat

/-- Consume one value from faker's shared generator. -/
def drawFaker (σ : RState) : Nat × RState :=
  (σ.fakerGen σ.fakerPos, { σ with fakerPos := σ.fakerPos + 1 })

/-- Consume one value from the stdlib `random` module's global instance
(what `random.choice` draws from). -/
def drawGlobal (σ : RState) : Nat × RState :=
  (σ.globalGen σ.globalPos, { σ with globalPos := σ.globalPos + 1 })

/-- Abstract PRNG stream determined by a seed, modelling the state
`Faker.seed(s)` installs: a pure function of `s` alone. -/
def fakerSeedGen (s : Int) : Nat → Nat :=
  fun i => s.natAbs + i

/-- The `if seed is not None: Faker.seed(seed)` step of generator.py lines
23-24: re-initializes the shared faker source once; the stdlib `random`
module's state is untouched. -/
def applySeed (seed : Option Int) (σ : RState) : RState :=
  match seed with
  | some s => { σ with fakerGen := fakerSeedGen s, fakerPos := 0 }
  | none => σ

/-- Dictionary lookup on an association list (Python `d[k]` / `k in d`). -/
def lookupC (l : List (String × CVal)) (k : String) : Option CVal :=
  (l.find? (fun p => p.1 == k)).map (fun p => p.2)

/-- Python `{**a, **b}`: keys of `a` in order with values overridden by
`b` where present, then the keys only in `b`. -/
def mergeArgs (a b : List (String × CVal)) : List (String × CVal) :=
  (a.map (fun p => match lookupC b p.1 with
    | some v => (p.1, v)
    | none => p))
    ++ b.filter (fun p => (lookupC a p.1).isNone)

/-- The comprehension `{k: v for k, v in constraints.items() if v is not
None}` at fields.py line 593. -/
def filterNull (l : List (String × CVal)) : List (String × CVal) :=
  l.filter (fun p => p.2 != CVal.null)

/-- Canonical username produced by `fake.user_name()` from one draw. -/
def userNameString (k : Nat) : String :=
  "user_" ++ toString k

/-- Tag distinguishing locale-specific generation contexts in the abstract
output of generic faker methods. -/
def localeTag : Option String → String
  | some l => l ++ "_"
  | none => ""

/-- Scalar registry constants as generated values. -/
def scalarToValue : Scalar → Value
  | .s v => .vStr v
  | .i n => .vInt n

/-- Keyword parameters accepted by each underlying faker generator;
passing any other keyword raises `TypeError` (the rejection that the
fallback at fields.py lines 604-609 recovers from). -/
def acceptedParams (m : String) : List String :=
  if m == "random_int" then ["min", "max", "step"]
  else if m == "random_element" then ["elements"]
  else if m == "date_of_birth" then ["tzinfo", "minimum_age", "maximum_age"]
  else if m == "pyfloat" then
    ["left_digits", "right_digits", "positive", "min_value", "max_value"]
  else if m == "boolean" then ["chance_of_getting_true"]
  else if m == "sentence" then ["nb_words", "variable_nb_words", "ext_word_list"]
  else if m == "paragraph" then ["nb_sentences", "variable_nb_sentences", "ext_word_list"]
  else if m == "text" then ["max_nb_chars", "ext_word_list"]
  else if m == "password" then ["length", "special_chars", "digits", "upper_case", "lower_case"]
  else if m == "bothify" then ["text", "letters"]
  else if m == "email" then ["safe", "domain"]
  else []

/-- One call `getattr(fake, m)(**args)` on the (possibly locale-specific)
faker instance.  Argument validation precedes any consumption of
entropy, as in faker/CPython; on success exactly one draw from the shared
faker stream is consumed and an abstract value is produced. -/
def callFaker (loc : Option String) (m : String) (args : List (String × CVal))
    (σ : RState) : Except GenError Value × RState :=
  if args.any (fun p => !((acceptedParams m).contains p.1)) then
    (.error (.typeError ("unexpected keyword argument for " ++ m)), σ)
  else if m == "random_int" then
    match (lookupC args "min").getD (.int 0), (lookupC args "max").getD (.int 9999) with
    | .int mn, .int mx =>
      if mx < mn then (.error (.valueError "empty range for randrange"), σ)
      else
        let (k, σ') := drawFaker σ
        (.ok (.vInt (mn + (k : Int) % (mx - mn + 1))), σ')
    | _, _ => (.error (.typeError "randrange arguments must be int"), σ)
  else if m == "date_of_birth" then
    match (lookupC args "minimum_age").getD (.int 0), (lookupC args "maximum_age").getD (.int 115) with
    | .int mn, .int mx =>
      if mx < 0 then (.error (.valueError "maximum_age must be greater than zero"), σ)
      else if mn < 0 then (.error (.valueError "minimum_age must be greater than zero"), σ)
      else if mx < mn then (.error (.valueError "minimum_age must be less than maximum_age"), σ)
      else
        let (k, σ') := drawFaker σ
        (.ok (.vDate (mn + (k : Int) % (mx - mn + 1))), σ')
    | _, _ => (.error (.typeError "age must be int"), σ)
  else if m == "random_element" then
    match (lookupC args "elements").getD (.list [.s "a", .s "b", .s "c"]) with
    | .list [] => (.error (.valueError "cannot choose from an empty sequence"), σ)
    | .list (x :: xs) =>
      let (k, σ') := drawFaker σ
      (.ok (scalarToValue ((x :: xs).getD (k % (x :: xs).length) (.s ""))), σ')
    | _ => (.error (.typeError "elements must be a sequence"), σ)
  else if m == "boolean" then
    match (lookupC args "chance_of_getting_true").getD (.int 50) with
    | .int c =>
      let (k, σ') := drawFaker σ
      (.ok (.vBool (decide ((k : Int) % 100 < c))), σ')
    | _ => (.error (.typeError "chance must be int"), σ)
  else if m == "pyfloat" then
    let (k, σ') := drawFaker σ
    (.ok (.vFloat k), σ')
  else if m == "user_name" then
    let (k, σ') := drawFaker σ
    (.ok (.vStr (userNameString k)), σ')
  else if m == "date_time_this_year" || m == "date_time_this_month" then
    let (k, σ') := drawFaker σ
    (.ok (.vDate (k : Int)), σ')
  else
    let (k, σ') := drawFaker σ
    (.ok (.vStr (localeTag loc ++ m ++ "_" ++ toString k)), σ')

/-- Static configuration read from a FIELD_REGISTRY entry by
`generate_field_value`: the faker method name, the fixed `faker_args`, and
the optional locale.  (The `label`/`category`/`constraints` entries are
display metadata consumed only by `get_field_metadata` for the UI; the
generation paths never read them, so they are not part of the embedding.) -/
structure FieldConfig where
  faker_method : String
  faker_args : List (String × CVal)
  locale : Option String
deriving DecidableEq, Repr

/-- Registry entry with no fixed args and no locale (the common case). -/
def fc (m : String) : FieldConfig :=
  ⟨m, [], none⟩

/-- The FIELD_REGISTRY dict of fields.py lines 23-544, restricted to the
keys the generation engine reads.  The Python source writes the keys
`http_status`, `response_time_ms` and `unix_timestamp` twice inside one
dict literal; per Python semantics the later entry wins, and the values
below are those final entries. -/
def FIELD_REGISTRY (id : String) : Option FieldConfig :=
  if id == "first_name" then some (fc "first_name")
  else if id == "last_name" then some (fc "last_name")
  else if id == "full_name" then some (fc "name")
  else if id == "username" then some (fc "user_name")
  else if id == "gender" then
    some ⟨"random_element", [("elements", .list [.s "Male", .s "Female", .s "Other"])], none⟩
  else if id == "email" then some (fc "email")
  else if id == "safe_email" then some (fc "safe_email")
  else if id == "phone" then some (fc "phone_number")
  else if id == "phone_us" then some ⟨"phone_number", [], some "en_US"⟩
  else if id == "phone_in" then some ⟨"phone_number", [], some "en_IN"⟩
  else if id == "dob" then some (fc "date_of_birth")
  else if id == "age" then some (fc "random_int")
  else if id == "created_at" then some (fc "date_time_this_year")
  else if id == "updated_at" then some (fc "date_time_this_month")
  else if id == "uuid" then some (fc "uuid4")
  else if id == "integer" then some (fc "random_int")
  else if id == "boolean" then some (fc "boolean")
  else if id == "enum" then some (fc "random_element")
  else if id == "sentence" then some (fc "sentence")
  else if id == "paragraph" then some (fc "paragraph")
  else if id == "description" then some (fc "text")
  else if id == "ip" then some (fc "ipv4")
  else if id == "ipv6" then some (fc "ipv6")
  else if id == "mac_address" then some (fc "mac_address")
  else if id == "city" then some (fc "city")
  else if id == "state" then some (fc "state")
  else if id == "country" then some (fc "country")
  else if id == "zip_code" then some (fc "postcode")
  else if id == "latitude" then some (fc "latitude")
  else if id == "longitude" then some (fc "longitude")
  else if id == "url" then some (fc "url")
  else if id == "user_agent" then some (fc "user_agent")
  else if id == "file_name" then some (fc "file_name")
  else if id == "float" then
    some ⟨"pyfloat", [("min_value", .int 0), ("max_value", .int 1000), ("right_digits", .int 2)], none⟩
  else if id == "percentage" then
    some ⟨"pyfloat", [("min_value", .int 0), ("max_value", .int 100), ("right_digits", .int 2)], none⟩
  else if id == "rating" then
    some ⟨"pyfloat", [("min_value", .int 1), ("max_value", .int 5), ("right_digits", .int 1)], none⟩
  else if id == "password" then some (fc "password")
  else if id == "token" then some (fc "sha256")
  else if id == "http_status" then
    some ⟨"random_element",
      [("elements", .list [.i 200, .i 201, .i 400, .i 401, .i 403, .i 404, .i 500])], none⟩
  else if id == "response_time_ms" then some (fc "random_int")
  else if id == "request_method" then
    some ⟨"random_element",
      [("elements", .list [.s "GET", .s "POST", .s "PUT", .s "PATCH", .s "DELETE"])], none⟩
  else if id == "endpoint" then some (fc "uri_path")
  else if id == "company" then some (fc "company")
  else if id == "job_title" then some (fc "job")
  else if id == "image_url" then some (fc "image_url")
  else if id == "file_path" then some (fc "file_path")
  else if id == "unix_timestamp" then some (fc "unix_time")
  else if id == "middle_name" then some (fc "first_name")
  else if id == "street_address" then some (fc "street_address")
  else if id == "time_zone" then some (fc "timezone")
  else if id == "referrer" then some (fc "uri")
  else if id == "log_level" then
    some ⟨"random_element",
      [("elements", .list [.s "DEBUG", .s "INFO", .s "WARN", .s "ERROR", .s "FATAL"])], none⟩
  else if id == "phone_secondary" then some (fc "phone_number")
  else if id == "currency_code" then some (fc "currency_code")
  else if id == "tax_id" then some (fc "bban")
  else if id == "bank_account" then some (fc "iban")
  else if id == "color_hex" then some (fc "hex_color")
  else if id == "emoji" then some (fc "emoji")
  else if id == "slug" then some (fc "slug")
  else if id == "sku" then
    some ⟨"bothify", [("text", .str "#??-##??")], none⟩
  else none

/-- Python `str.strip()` character-level semantics: drop whitespace from
both ends. -/
def pyStripChars (l : List Char) : List Char :=
  ((l.dropWhile Char.isWhitespace).reverse.dropWhile Char.isWhitespace).reverse

/-- Python `s.strip()`. -/
def pyStrip (s : String) : String :=
  ⟨pyStripChars s.data⟩

/-- Python `s.split(',')` over the character list: always at least one
token, empty tokens preserved. -/
def splitCommaAux : List Char → List Char → List (List Char)
  | [], acc => [acc.reverse]
  | c :: rest, acc =>
    if c = ',' then acc.reverse :: splitCommaAux rest []
    else splitCommaAux rest (c :: acc)

/-- Python `s.split(',')`. -/
def pySplitComma (s : String) : List String :=
  (splitCommaAux s.data []).map (fun l => ⟨l⟩)

/-- The `'domain' in constraints and constraints['domain']` test at
fields.py line 582. -/
def domainGiven (cs : List (String × CVal)) : Bool :=
  match lookupC cs "domain" with
  | some v => v.truthy
  | none => false

/-- The `try: method(**args) ... except: method()` generic path of
fields.py lines 598-609, including the `isoformat` normalization on both
paths.  (`method(**args) if args else method()` coincides with calling
with the empty argument list when `args` is empty.) -/
def genericCall (loc : Option String) (m : String) (merged : List (String × CVal))
    (σ : RState) : Except GenError Value × RState :=
  match callFaker loc m merged σ with
  | (.ok v, σ') => (.ok (isoConvert v), σ')
  | (.error _, σ') =>
    match callFaker loc m [] σ' with
    | (.ok v, σ'') => (.ok (isoConvert v), σ'')
    | (.error e, σ'') => (.error e, σ'')

/-- fields.py `generate_field_value(fake, field_type, constraints)`.
`constraints = none` models Python `None`; `some []` models the empty
dict; both are falsy for `if constraints:`.  The email special case draws
the username before failing on a non-string domain, matching Python's
evaluation order in `fake.user_name() + '@' + constraints['domain']`. -/
def generate_field_value (field_type : String)
    (constraints : Option (List (String × CVal))) (σ : RState) :
    Except GenError Value × RState :=
  match FIELD_REGISTRY field_type with
  | none => (.error (.unknownFieldType field_type), σ)
  | some cfg =>
    if (constraints.getD []).isEmpty then
      genericCall cfg.locale cfg.faker_method cfg.faker_args σ
    else
      if field_type == "email" && domainGiven (constraints.getD []) then
        match lookupC (constraints.getD []) "domain" with
        | some (.str d) =>
          (.ok (.vStr (userNameString (drawFaker σ).1 ++ "@" ++ d)), (drawFaker σ).2)
        | _ => (.error (.typeError "can only concatenate str to str"), (drawFaker σ).2)
      else if field_type == "enum" && (lookupC (constraints.getD []) "values").isSome then
        match lookupC (constraints.getD []) "values" with
        | some (.str s) =>
          match (pySplitComma s).map pyStrip with
          | [] => (.error (.valueError "cannot choose from an empty sequence"), σ)
          | t0 :: ts =>
            (.ok (.vStr ((t0 :: ts).getD ((drawGlobal σ).1 % (t0 :: ts).length) "")),
              (drawGlobal σ).2)
        | _ => (.error (.typeError "split needs a string"), σ)
      else if field_type == "dob" then
        callFaker cfg.locale cfg.faker_method
          [("minimum_age", (lookupC (constraints.getD []) "min_age").getD (.int 18)),
            ("maximum_age", (lookupC (constraints.getD []) "max_age").getD (.int 90))] σ
      else
        genericCall cfg.locale cfg.faker_method
          (mergeArgs cfg.faker_args (filterNull (constraints.getD []))) σ

/-- Schema entries as accepted by generator.py: either a bare type string
or an object whose `type` key names the field type and whose other keys
are constraints. -/
inductive FieldDef where
  | str (ftype : String)
  | obj (entries : List (String × CVal))
deriving DecidableEq, Repr

/-- The `field_def.get('type')` normalization of generator.py lines 33-38,
rendered as the string Python would interpolate into the unknown-type
error (`None` for a missing or null `type` key). -/
def typeStringOf : FieldDef → String
  | .str t => t
  | .obj es =>
    match lookupC es "type" with
    | some (.str t) => t
    | some (.int n) => toString n
    | some (.list _) => "list"
    | some .null => "None"
    | none => "None"

/-- The `{k: v for k, v in field_def.items() if k != 'type'}` constraints
normalization of generator.py line 38 (`none` for the bare-string form). -/
def constraintsOf : FieldDef → Option (List (String × CVal))
  | .str _ => none
  | .obj es => some (es.filter (fun p => p.1 != "type"))

/-- The inner loop of generator.py lines 31-41: one record, fields in the
schema's declared order; the first exception aborts. -/
def genFields (schema : List (String × FieldDef)) (σ : RState) :
    Except GenError (List (String × Value)) × RState :=
  match schema with
  | [] => (.ok [], σ)
  | (name, fd) :: rest =>
    match generate_field_value (typeStringOf fd) (constraintsOf fd) σ with
    | (.error e, σ') => (.error e, σ')
    | (.ok v, σ') =>
      match genFields rest σ' with
      | (.error e, σ'') => (.error e, σ'')
      | (.ok fs, σ'') => (.ok ((name, v) :: fs), σ'')

/-- The outer loop of generator.py lines 29-43: `count` records in order;
the first exception aborts the whole batch with no partial results. -/
def genRecords (schema : List (String × FieldDef)) :
    Nat → RState → Except GenError (List (List (String × Value))) × RState
  | 0, σ => (.ok [], σ)
  | Nat.succ n, σ =>
    match genFields schema σ with
    | (.error e, σ') => (.error e, σ')
    | (.ok r, σ') =>
      match genRecords schema n σ' with
      | (.error e, σ'') => (.error e, σ'')
      | (.ok rs, σ'') => (.ok (r :: rs), σ'')

/-- generator.py `generate_data(schema, count, seed)`.  `count` is a
Python int, so it is modelled as `Int`; `for _ in range(count)` runs
`count.toNat` times (zero times for `count ≤ 0`).  Seeding happens once,
before any record is generated. -/
def generate_data (schema : List (String × FieldDef)) (count : Int)
    (seed : Option Int) (σ : RState) :
    Except GenError (List (List (String × Value))) × RState :=
  genRecords schema count.toNat (applySeed seed σ)

/-- A truthy email `domain` constraint must be a string, or the
concatenation in the email special case raises `TypeError`. -/
def emailCsOk (cs : List (String × CVal)) : Bool :=
  match lookupC cs "domain" with
  | some (.str _) => true
  | some v => !v.truthy
  | none => true

/-- A present enum `values` constraint must be a string, or `.split` in
the enum special case raises. -/
def enumCsOk (cs : List (String × CVal)) : Bool :=
  match lookupC cs "values" with
  | some (.str _) => true
  | some _ => false
  | none => true

/-- The dob branch calls `date_of_birth` outside the `try`, so its ages
must be integers with `0 ≤ min_age ≤ max_age` or the call raises. -/
def dobCsOk (cs : List (String × CVal)) : Bool :=
  match (lookupC cs "min_age").getD (.int 18), (lookupC cs "max_age").getD (.int 90) with
  | .int mn, .int mx => decide (0 ≤ mn) && decide (mn ≤ mx)
  | _, _ => false

/-- Well-typedness of one field's special-case constraints: the
conditions under which the paths of `generate_field_value` that sit
outside the `try` of the generic fallback cannot raise. -/
def specialOk (t : String) (cs : List (String × CVal)) : Bool :=
  (!(t == "email") || emailCsOk cs) &&
    ((!(t == "enum") || enumCsOk cs) &&
      (!(t == "dob") || dobCsOk cs))

/-- `specialOk` lifted to the optional constraints mapping; trivially true
when the mapping is absent or empty (falsy), since then only the generic
path with its internal fallback runs. -/
def specialsOk (t : String) (cso : Option (List (String × CVal))) : Bool :=
  if (cso.getD []).isEmpty then true else specialOk t (cso.getD [])

/-- Well-formedness of one schema entry: its type is a registry id and
its special-case constraints are well-typed. -/
def fieldOk (fd : FieldDef) : Bool :=
  (FIELD_REGISTRY (typeStringOf fd)).isSome &&
    specialsOk (typeStringOf fd) (constraintsOf fd)

/-- Whether `pat` occurs at the start of `l`. -/
def startsSeq : List Char → List Char → Bool
  | [], _ => true
  | _ :: _, [] => false
  | a :: as, b :: bs => a == b && startsSeq as bs

/-- Whether `pat` occurs contiguously anywhere in `l` (substring test on
character lists, used to check what an error message does or does not
mention). -/
def containsSeq (pat : List Char) : List Char → Bool
  | [] => pat.isEmpty
  | b :: bs => startsSeq pat (b :: bs) || containsSeq pat bs

/-! ### Helper lemmas about the faker-call layer -/

theorem callFaker_noargs_ok (loc : Option String) (m : String) (σ : RState) :
    ∃ v, callFaker loc m [] σ = (.ok v, { σ with fakerPos := σ.fakerPos + 1 }) := by
  unfold callFaker
  rw [if_neg (by simp)]
  repeat' first
    | exact ⟨_, rfl⟩
    | split

theorem genericCall_ok (loc : Option String) (m : String)
    (merged : List (String × CVal)) (σ : RState) :
    ∃ v σ', genericCall loc m merged σ = (.ok v, σ') := by
  unfold genericCall
  rcases h : callFaker loc m merged σ with ⟨r, σ1⟩
  cases r with
  | ok v => exact ⟨isoConvert v, σ1, rfl⟩
  | error e =>
    obtain ⟨w, hw⟩ := callFaker_noargs_ok loc m σ1
    refine ⟨isoConvert w, { σ1 with fakerPos := σ1.fakerPos + 1 }, ?_⟩
    show (match callFaker loc m [] σ1 with
      | (.ok v, σ'') => (Except.ok (isoConvert v), σ'')
      | (.error e, σ'') => (Except.error e, σ'')) = _
    rw [hw]

theorem callFaker_dob_ok (loc : Option String) (mn mx : Int)
    (h0 : 0 ≤ mn) (hle : mn ≤ mx) (σ : RState) :
    callFaker loc "date_of_birth" [("minimum_age", .int mn), ("maximum_age", .int mx)] σ =
      (.ok (.vDate (mn + ((σ.fakerGen σ.fakerPos : Nat) : Int) % (mx - mn + 1))),
        { σ with fakerPos := σ.fakerPos + 1 }) := by
  have h : callFaker loc "date_of_birth"
      [("minimum_age", .int mn), ("maximum_age", .int mx)] σ =
      (if mx < 0 then (.error (.valueError "maximum_age must be greater than zero"), σ)
       else if mn < 0 then (.error (.valueError "minimum_age must be greater than zero"), σ)
       else if mx < mn then (.error (.valueError "minimum_age must be less than maximum_age"), σ)
       else (.ok (.vDate (mn + ((σ.fakerGen σ.fakerPos : Nat) : Int) % (mx - mn + 1))),
         { σ with fakerPos := σ.fakerPos + 1 })) := rfl
  rw [h, if_neg (show ¬(mx < 0) from by omega), if_neg (show ¬(mn < 0) from by omega),
      if_neg (show ¬(mx < mn) from by omega)]

theorem splitCommaAux_ne_nil (l acc : List Char) : splitCommaAux l acc ≠ [] := by
  induction l generalizing acc with
  | nil => simp [splitCommaAux]
  | cons c rest ih =>
    unfold splitCommaAux
    by_cases hc : c = ','
    · simp [hc]
    · simp only [if_neg hc]
      exact ih _

theorem pyTokens_ne_nil (s : String) : (pySplitComma s).map pyStrip ≠ [] := by
  unfold pySplitComma
  intro h
  rw [List.map_map, List.map_eq_nil_iff] at h
  exact splitCommaAux_ne_nil _ _ h

theorem gfv_ok (t : String) (cso : Option (List (String × CVal)))
    (hreg : (FIELD_REGISTRY t).isSome = true)
    (hsp : specialsOk t cso = true) (σ : RState) :
    ∃ v σ', generate_field_value t cso σ = (.ok v, σ') := by
  obtain ⟨cfg, hcfg⟩ := Option.isSome_iff_exists.mp hreg
  unfold generate_field_value
  simp only [hcfg]
  by_cases hE : (cso.getD []).isEmpty = true
  · rw [if_pos hE]
    exact genericCall_ok _ _ _ _
  · rw [if_neg hE]
    unfold specialsOk at hsp
    rw [if_neg hE] at hsp
    by_cases hEmail : (t == "email" && domainGiven (cso.getD [])) = true
    · rw [if_pos hEmail]
      rw [Bool.and_eq_true] at hEmail
      obtain ⟨hte, hdom⟩ := hEmail
      have ht : t = "email" := eq_of_beq hte
      subst ht
      rcases hl : lookupC (cso.getD []) "domain" with _ | v
      · exfalso
        unfold domainGiven at hdom
        simp only [hl] at hdom
        exact Bool.false_ne_true hdom
      · have htr : v.truthy = true := by
          unfold domainGiven at hdom
          simp only [hl] at hdom
          exact hdom
        cases v with
        | str d =>
          simp only [hl]
          exact ⟨_, _, rfl⟩
        | int n =>
          exfalso
          unfold specialOk emailCsOk at hsp
          simp [hl, htr] at hsp
        | null =>
          exfalso
          unfold specialOk emailCsOk at hsp
          simp [hl, htr] at hsp
        | list xs =>
          exfalso
          unfold specialOk emailCsOk at hsp
          simp [hl, htr] at hsp
    · rw [if_neg hEmail]
      by_cases hEnum : (t == "enum" && (lookupC (cso.getD []) "values").isSome) = true
      · rw [if_pos hEnum]
        rw [Bool.and_eq_true] at hEnum
        obtain ⟨hte, hvals⟩ := hEnum
        have ht : t = "enum" := eq_of_beq hte
        subst ht
        rcases hl : lookupC (cso.getD []) "values" with _ | v
        · rw [hl] at hvals
          exact absurd hvals (by simp)
        · cases v with
          | str s =>
            simp only [hl]
            rcases htoks : (pySplitComma s).map pyStrip with _ | ⟨t0, ts⟩
            · exact absurd htoks (pyTokens_ne_nil s)
            · simp only [htoks]
              exact ⟨_, _, rfl⟩
          | int n =>
            exfalso
            unfold specialOk enumCsOk at hsp
            simp [hl] at hsp
          | null =>
            exfalso
            unfold specialOk enumCsOk at hsp
            simp [hl] at hsp
          | list xs =>
            exfalso
            unfold specialOk enumCsOk at hsp
            simp [hl] at hsp
      · rw [if_neg hEnum]
        by_cases hDob : (t == "dob") = true
        · rw [if_pos hDob]
          have ht : t = "dob" := eq_of_beq hDob
          subst ht
          have hc2 : some (fc "date_of_birth") = some cfg := hcfg
          injection hc2 with hc3
          subst hc3
          unfold specialOk dobCsOk at hsp
          cases hmn : (lookupC (cso.getD []) "min_age").getD (.int 18) with
          | str s =>
            exfalso; simp [hmn] at hsp
          | null =>
            exfalso; simp [hmn] at hsp
          | list xs =>
            exfalso; simp [hmn] at hsp
          | int mn =>
            cases hmx : (lookupC (cso.getD []) "max_age").getD (.int 90) with
            | str s =>
              exfalso; simp [hmn, hmx] at hsp
            | null =>
              exfalso; simp [hmn, hmx] at hsp
            | list xs =>
              exfalso; simp [hmn, hmx] at hsp
            | int mx =>
              simp only [hmn, hmx] at hsp
              have hb : (decide (0 ≤ mn) && decide (mn ≤ mx)) = true := by
                simp at hsp
                simp [hsp]
              rw [Bool.and_eq_true, decide_eq_true_iff, decide_eq_true_iff] at hb
              obtain ⟨h0, hle⟩ := hb
              exact ⟨_, _, callFaker_dob_ok _ mn mx h0 hle σ⟩
        · rw [if_neg hDob]
          exact genericCall_ok _ _ _ _

theorem genFields_keys (schema : List (String × FieldDef)) :
    ∀ (σ σ' : RState) (r : List (String × Value)),
      genFields schema σ = (.ok r, σ') → r.map Prod.fst = schema.map Prod.fst := by
  induction schema with
  | nil =>
    intro σ σ' r h
    unfold genFields at h
    injection h with ha hb
    injection ha with hr
    subst hr
    rfl
  | cons p rest ih =>
    intro σ σ' r h
    obtain ⟨name, fd⟩ := p
    unfold genFields at h
    split at h
    · simp at h
    · rename_i v σ1 heq1
      split at h
      · simp at h
      · rename_i fs σ2 heq2
        injection h with ha hb
        injection ha with hr
        subst hr
        simpa using ih σ1 σ2 fs heq2

theorem genFields_ok (schema : List (String × FieldDef))
    (h : ∀ p ∈ schema, fieldOk p.2 = true) :
    ∀ σ : RState, ∃ r σ', genFields schema σ = (.ok r, σ') := by
  induction schema with
  | nil => intro σ; exact ⟨[], σ, rfl⟩
  | cons p rest ih =>
    intro σ
    obtain ⟨name, fd⟩ := p
    have hp := h _ (List.mem_cons_self _ _)
    unfold fieldOk at hp
    rw [Bool.and_eq_true] at hp
    obtain ⟨hreg, hsp⟩ := hp
    obtain ⟨v, σ1, hv⟩ := gfv_ok _ _ hreg hsp σ
    obtain ⟨fs, σ2, hfs⟩ := ih (fun q hq => h q (List.mem_cons_of_mem _ hq)) σ1
    refine ⟨(name, v) :: fs, σ2, ?_⟩
    simp only [genFields, hv, hfs]

theorem genRecords_ok (schema : List (String × FieldDef))
    (h : ∀ p ∈ schema, fieldOk p.2 = true) :
    ∀ (n : Nat) (σ : RState),
      ∃ l σ', genRecords schema n σ = (.ok l, σ') ∧ l.length = n := by
  intro n
  induction n with
  | zero => intro σ; exact ⟨[], σ, rfl, rfl⟩
  | succ m ih =>
    intro σ
    obtain ⟨r, σ1, hr⟩ := genFields_ok schema h σ
    obtain ⟨l, σ2, hl, hlen⟩ := ih σ1
    refine ⟨r :: l, σ2, ?_, by simp [hlen]⟩
    simp only [genRecords, hr, hl]

theorem genRecords_keys (schema : List (String × FieldDef)) :
    ∀ (n : Nat) (σ σ' : RState) (l : List (List (String × Value))),
      genRecords schema n σ = (.ok l, σ') →
        ∀ r ∈ l, r.map Prod.fst = schema.map Prod.fst := by
  intro n
  induction n with
  | zero =>
    intro σ σ' l h r hr
    unfold genRecords at h
    injection h with ha hb
    injection ha with hl
    subst hl
    simp at hr
  | succ m ih =>
    intro σ σ' l h r hr
    unfold genRecords at h
    split at h
    · simp at h
    · rename_i r0 σ1 heq1
      split at h
      · simp at h
      · rename_i rs σ2 heq2
        injection h with ha hb
        injection ha with hl
        subst hl
        rcases List.mem_cons.mp hr with hcase | hcase
        · subst hcase
          exact genFields_keys schema σ σ1 r heq1
        · exact ih σ1 σ2 rs heq2 r hcase

theorem genRecords_take (schema : List (String × FieldDef)) :
    ∀ (k n : Nat) (σ σf : RState) (l : List (List (String × Value))), k ≤ n →
      genRecords schema n σ = (.ok l, σf) →
        ∃ σ', genRecords schema k σ = (.ok (l.take k), σ') := by
  intro k
  induction k with
  | zero =>
    intro n σ σf l hk h
    exact ⟨σ, rfl⟩
  | succ j ih =>
    intro n σ σf l hk h
    cases n with
    | zero => omega
    | succ m =>
      unfold genRecords at h
      split at h
      · simp at h
      · rename_i r0 σ1 heq1
        split at h
        · simp at h
        · rename_i rs σ2 heq2
          injection h with ha hb
          injection ha with hl
          subst hl
          obtain ⟨σ', hj⟩ := ih m σ1 σ2 rs (by omega) heq2
          refine ⟨σ', ?_⟩
          simp only [genRecords, heq1, hj, List.take_succ_cons]

theorem gfv_unknown (t : String) (cso : Option (List (String × CVal))) (σ : RState)
    (h : FIELD_REGISTRY t = none) :
    generate_field_value t cso σ = (.error (.unknownFieldType t), σ) := by
  unfold generate_field_value
  simp only [h]

theorem genFields_unknown (post : List (String × FieldDef)) (name : String) (fd : FieldDef)
    (hbad : FIELD_REGISTRY (typeStringOf fd) = none) :
    ∀ (pre : List (String × FieldDef)), (∀ p ∈ pre, fieldOk p.2 = true) →
      ∀ σ : RState, ∃ σ', genFields (pre ++ (name, fd) :: post) σ =
        (.error (.unknownFieldType (typeStringOf fd)), σ') := by
  intro pre
  induction pre with
  | nil =>
    intro _ σ
    refine ⟨σ, ?_⟩
    simp only [List.nil_append, genFields, gfv_unknown _ _ σ hbad]
  | cons p rest ih =>
    intro hpre σ
    obtain ⟨n0, f0⟩ := p
    have hp := hpre _ (List.mem_cons_self _ _)
    unfold fieldOk at hp
    rw [Bool.and_eq_true] at hp
    obtain ⟨v, σ1, hv⟩ := gfv_ok _ _ hp.1 hp.2 σ
    obtain ⟨σ', hrest⟩ := ih (fun q hq => hpre q (List.mem_cons_of_mem _ hq)) σ1
    refine ⟨σ', ?_⟩
    simp only [List.cons_append, genFields, hv, List.append_eq, hrest]

theorem genRecords_error (schema : List (String × FieldDef)) (m : Nat) (σ σ1 : RState)
    (e : GenError) (h : genFields schema σ = (.error e, σ1)) :
    genRecords schema (m + 1) σ = (.error e, σ1) := by
  simp only [genRecords, h]

/-- Schema with a single enum field constrained to the values "A,B", used
to exhibit the dependence of enum generation on the stdlib `random`
module's state. -/
def schemaE : List (String × FieldDef) :=
  [("x", FieldDef.obj [("type", CVal.str "enum"), ("values", CVal.str "A,B")])]

/-- C1.  Determinism fails on the code: the enum special case draws from
the process-global `random` module (fields.py line 586), which
`Faker.seed` does not reseed, so two calls of `generate` with the same
schema, the same count and the same seed produce different outputs (the
second call sees the global source advanced by the first).  Here, from
global stream `i ↦ i`, the first seeded call yields "A" and the
immediately following identical call yields "B". -/
theorem enum_uses_global_random_not_seeded :
    (generate_data schemaE 1 (some 42) ⟨fun _ => 0, 0, fun i => i, 0⟩).1 =
        .ok [[("x", Value.vStr "A")]] ∧
      (generate_data schemaE 1 (some 42)
          (generate_data schemaE 1 (some 42) ⟨fun _ => 0, 0, fun i => i, 0⟩).2).1 =
        .ok [[("x", Value.vStr "B")]] ∧
      ([[("x", Value.vStr "A")]] : List (List (String × Value))) ≠ [[("x", Value.vStr "B")]] :=
  ⟨rfl, rfl, by decide⟩

/-- C3 counterexample.  Record 1 of a seeded enum batch does not depend
only on (schema, seed, entropy of earlier records): with no earlier
records at all, two runs with identical schema, count, and seed but
different stdlib-random states produce different first records. -/
theorem record_depends_on_global_state_cex :
    (generate_data schemaE 1 (some 42) ⟨fun _ => 0, 0, fun i => i, 0⟩).1 =
        .ok [[("x", Value.vStr "A")]] ∧
      (generate_data schemaE 1 (some 42) ⟨fun _ => 0, 0, fun i => i + 1, 0⟩).1 =
        .ok [[("x", Value.vStr "B")]] ∧
      ([[("x", Value.vStr "A")]] : List (List (String × Value))) ≠ [[("x", Value.vStr "B")]] :=
  ⟨rfl, rfl, by decide⟩

/-- C3 (amended).  The faker source is re-seeded exactly once, before any
record; when the two calls additionally start from the same
stdlib-random state (the component the seed does not control), the first
k records of `generate(schema, n, seed)` equal `generate(schema, k,
seed)`. -/
theorem generate_data_take_consistent (schema : List (String × FieldDef))
    (k n : Int) (seed : Option Int) (σ σf : RState)
    (l : List (List (String × Value)))
    (h1 : 1 ≤ k) (h2 : k ≤ n)
    (h : generate_data schema n seed σ = (.ok l, σf)) :
    ∃ σ', generate_data schema k seed σ = (.ok (l.take k.toNat), σ') :=
  genRecords_take schema k.toNat n.toNat (applySeed seed σ) σf l (by omega) h

/-- C3 witness: a two-record seeded integer batch restricted to its first
record. -/
theorem generate_data_take_consistent_witness :
    (1 : Int) ≤ 1 ∧ (1 : Int) ≤ 2 ∧
      generate_data [("a", FieldDef.str "integer")] 2 (some 5)
          ⟨fun _ => 0, 0, fun i => i, 0⟩ =
        (.ok [[("a", Value.vInt 5)], [("a", Value.vInt 6)]],
          ⟨fakerSeedGen 5, 2, fun i => i, 0⟩) ∧
      ∃ σ', generate_data [("a", FieldDef.str "integer")] 1 (some 5)
          ⟨fun _ => 0, 0, fun i => i, 0⟩ =
        (.ok ([[("a", Value.vInt 5)], [("a", Value.vInt 6)]].take (1 : Int).toNat), σ') :=
  ⟨by decide, by decide, rfl,
    generate_data_take_consistent [("a", FieldDef.str "integer")] 1 2 (some 5)
      ⟨fun _ => 0, 0, fun i => i, 0⟩ ⟨fakerSeedGen 5, 2, fun i => i, 0⟩
      [[("a", Value.vInt 5)], [("a", Value.vInt 6)]] (by decide) (by decide) rfl⟩

/-- C2 counterexample.  The unknown-type failure does abort the batch
with a generation error naming the type, but the surfaced message (the
`str(e)` that server.py interpolates) is exactly "Unknown field type:
bogus": it contains the offending type and does not contain the
offending field name "myfield". -/
theorem unknown_type_message_cex :
    (generate_data [("myfield", FieldDef.str "bogus")] 1 none
        ⟨fun _ => 0, 0, fun i => i, 0⟩).1 =
      .error (.unknownFieldType "bogus") ∧
    errorMessage (.unknownFieldType "bogus") = "Unknown field type: bogus" ∧
    containsSeq "myfield".data (errorMessage (.unknownFieldType "bogus")).data = false ∧
    containsSeq "bogus".data (errorMessage (.unknownFieldType "bogus")).data = true :=
  ⟨rfl, rfl, by decide, by decide⟩

/-- C2 (amended).  For a positive count, a schema whose fields preceding
the first unknown-typed field are well-formed aborts the whole batch
with the `ValueError` of fields.py line 565: no records are produced and
the error carries the offending field type (but not the field name). -/
theorem generate_data_unknown_type_aborts (pre post : List (String × FieldDef))
    (name : String) (fd : FieldDef) (count : Int) (seed : Option Int) (σ : RState)
    (hpre : ∀ p ∈ pre, fieldOk p.2 = true)
    (hbad : FIELD_REGISTRY (typeStringOf fd) = none) (hpos : 1 ≤ count) :
    ∃ σ', generate_data (pre ++ (name, fd) :: post) count seed σ =
        (.error (.unknownFieldType (typeStringOf fd)), σ') ∧
      errorMessage (.unknownFieldType (typeStringOf fd)) =
        "Unknown field type: " ++ typeStringOf fd := by
  obtain ⟨σ1, hf⟩ := genFields_unknown post name fd hbad pre hpre (applySeed seed σ)
  obtain ⟨m, hm⟩ : ∃ m, count.toNat = m + 1 := ⟨count.toNat - 1, by omega⟩
  refine ⟨σ1, ?_, rfl⟩
  unfold generate_data
  rw [hm]
  exact genRecords_error _ m _ _ _ hf

/-- C2 witness: a well-formed integer field followed by an unknown type. -/
theorem generate_data_unknown_type_aborts_witness :
    (∀ p ∈ [("a", FieldDef.str "integer")], fieldOk p.2 = true) ∧
    FIELD_REGISTRY (typeStringOf (FieldDef.str "bogus")) = none ∧
    (1 : Int) ≤ 1 ∧
    ∃ σ', generate_data ([("a", FieldDef.str "integer")] ++
          ("myfield", FieldDef.str "bogus") :: []) 1 none ⟨fun _ => 0, 0, fun i => i, 0⟩ =
        (.error (.unknownFieldType (typeStringOf (FieldDef.str "bogus"))), σ') ∧
      errorMessage (.unknownFieldType (typeStringOf (FieldDef.str "bogus"))) =
        "Unknown field type: " ++ typeStringOf (FieldDef.str "bogus") :=
  ⟨by decide, by decide, by decide,
    generate_data_unknown_type_aborts [("a", FieldDef.str "integer")] [] "myfield"
      (FieldDef.str "bogus") 1 none ⟨fun _ => 0, 0, fun i => i, 0⟩
      (by decide) (by decide) (by decide)⟩

/-- C7 counterexample.  A schema whose only field has registry type
"dob" but inverted age bounds makes `generate` raise (the dob special
case sits outside the try/except), so no list of records is returned at
all, refuting the count contract for registry-typed schemas. -/
theorem dob_inverted_ages_abort_batch_cex :
    (generate_data
        [("x", FieldDef.obj [("type", CVal.str "dob"),
          ("min_age", CVal.int 50), ("max_age", CVal.int 10)])]
        1 none ⟨fun _ => 0, 0, fun i => i, 0⟩).1 =
      .error (.valueError "minimum_age must be less than maximum_age") ∧
    (generate_data
        [("x", FieldDef.obj [("type", CVal.str "dob"),
          ("min_age", CVal.int 50), ("max_age", CVal.int 10)])]
        1 none ⟨fun _ => 0, 0, fun i => i, 0⟩).1.isOk = false :=
  ⟨rfl, rfl⟩

/-- C7 (amended).  For every schema whose fields are all well-formed
(registry type; email/enum/dob special-case constraints well-typed, dob
ages with 0 ≤ min ≤ max) and every positive count, `generate` returns an
ordered list of exactly `count` records. -/
theorem generate_data_count_contract (schema : List (String × FieldDef))
    (count : Int) (seed : Option Int) (σ : RState)
    (hok : ∀ p ∈ schema, fieldOk p.2 = true) (hpos : 0 < count) :
    ∃ l σ', generate_data schema count seed σ = (.ok l, σ') ∧
      (l.length : Int) = count := by
  obtain ⟨l, σ', h, hlen⟩ := genRecords_ok schema hok count.toNat (applySeed seed σ)
  exact ⟨l, σ', h, by omega⟩

/-- C7 witness: three records for a one-field integer schema. -/
theorem generate_data_count_contract_witness :
    (∀ p ∈ [("a", FieldDef.str "integer")], fieldOk p.2 = true) ∧
    (0 : Int) < 3 ∧
    ∃ l σ', generate_data [("a", FieldDef.str "integer")] 3 (some 1)
        ⟨fun _ => 0, 0, fun i => i, 0⟩ = (.ok l, σ') ∧ (l.length : Int) = 3 :=
  ⟨by decide, by decide,
    generate_data_count_contract [("a", FieldDef.str "integer")] 3 (some 1)
      ⟨fun _ => 0, 0, fun i => i, 0⟩ (by decide) (by decide)⟩

/-- C8.  Whenever `generate` returns a batch, every record's keys are
exactly the schema's field names in declared order; in particular all
records share the identical key sequence. -/
theorem generate_data_key_order (schema : List (String × FieldDef))
    (count : Int) (seed : Option Int) (σ σf : RState)
    (l : List (List (String × Value)))
    (h : generate_data schema count seed σ = (.ok l, σf)) :
    (∀ r ∈ l, r.map Prod.fst = schema.map Prod.fst) ∧
      ∀ r1 ∈ l, ∀ r2 ∈ l, r1.map Prod.fst = r2.map Prod.fst := by
  have hk := genRecords_keys schema count.toNat (applySeed seed σ) σf l h
  exact ⟨hk, fun r1 m1 r2 m2 => (hk r1 m1).trans (hk r2 m2).symm⟩

/-- C8 witness: a two-field schema `{a: integer, b: boolean}` keeps key
order `[a, b]` in both generated records. -/
theorem generate_data_key_order_witness :
    (∀ r ∈ [[("a", Value.vInt 7), ("b", Value.vBool true)],
            [("a", Value.vInt 9), ("b", Value.vBool true)]],
        r.map Prod.fst =
          [("a", FieldDef.str "integer"), ("b", FieldDef.str "boolean")].map Prod.fst) ∧
      ∀ r1 ∈ [[("a", Value.vInt 7), ("b", Value.vBool true)],
              [("a", Value.vInt 9), ("b", Value.vBool true)]],
        ∀ r2 ∈ [[("a", Value.vInt 7), ("b", Value.vBool true)],
                [("a", Value.vInt 9), ("b", Value.vBool true)]],
          r1.map Prod.fst = r2.map Prod.fst :=
  generate_data_key_order
    [("a", FieldDef.str "integer"), ("b", FieldDef.str "boolean")] 2 (some 7)
    ⟨fun _ => 0, 0, fun i => i, 0⟩ ⟨fakerSeedGen 7, 4, fun i => i, 0⟩
    [[("a", Value.vInt 7), ("b", Value.vBool true)],
     [("a", Value.vInt 9), ("b", Value.vBool true)]] rfl

/-- C10.  For every schema and every count ≤ 0 the record loop runs zero
times, so `generate` returns the empty list and raises no error, even
when the schema mentions unknown field types (the registry is never
consulted). -/
theorem generate_data_nonpositive_count (schema : List (String × FieldDef))
    (count : Int) (seed : Option Int) (σ : RState) (h : count ≤ 0) :
    ∃ σ', generate_data schema count seed σ = (.ok [], σ') := by
  refine ⟨applySeed seed σ, ?_⟩
  unfold generate_data
  rw [Int.toNat_of_nonpos h]
  rfl

/-- C10 witness: count −3 with an unknown field type still yields the
empty list. -/
theorem generate_data_nonpositive_count_witness :
    (-3 : Int) ≤ 0 ∧
      ∃ σ', generate_data [("x", FieldDef.str "bogus")] (-3) none
        ⟨fun _ => 0, 0, fun i => i, 0⟩ = (.ok [], σ') :=
  ⟨by decide,
    generate_data_nonpositive_count [("x", FieldDef.str "bogus")] (-3) none
      ⟨fun _ => 0, 0, fun i => i, 0⟩ (by decide)⟩

theorem getD_mem {α : Type} (l : List α) (n : Nat) (d : α) (h : n < l.length) :
    l.getD n d ∈ l := by
  induction l generalizing n with
  | nil => simp at h
  | cons a as ih =>
    cases n with
    | zero => simp [List.getD]
    | succ m =>
      simp only [List.getD_cons_succ]
      exact List.mem_cons_of_mem _ (ih m (by simpa using h))

/-- C4.  `resolveValue` on type "email" with a non-empty string `domain`
constraint returns `"<random-username>@<domain>"`: the username comes
from one `user_name` draw and the domain is appended verbatim, so the
output ends with "@" followed by exactly the requested domain; the
generic `email` generator consumes no entropy and is never invoked. -/
theorem email_domain_override (cs : List (String × CVal)) (d : String) (σ : RState)
    (hl : lookupC cs "domain" = some (.str d)) (hd : d ≠ "") :
    generate_field_value "email" (some cs) σ =
      (.ok (.vStr (userNameString (σ.fakerGen σ.fakerPos) ++ "@" ++ d)),
        { σ with fakerPos := σ.fakerPos + 1 }) := by
  cases cs with
  | nil => simp [lookupC] at hl
  | cons c0 crest =>
    have hde : d.isEmpty = false := by
      cases h : d.isEmpty
      · rfl
      · exact absurd ((String.isEmpty_iff d).mp h) hd
    have hdg : domainGiven (c0 :: crest) = true := by
      unfold domainGiven
      rw [hl]
      simp [CVal.truthy, hde]
    unfold generate_field_value
    simp only [show FIELD_REGISTRY "email" = some (fc "email") from rfl, Option.getD_some]
    rw [if_neg (by simp), if_pos (by simp [hdg])]
    simp only [hl]
    rfl

/-- C4 witness: domain "test.com" is honored exactly. -/
theorem email_domain_override_witness :
    lookupC [("domain", CVal.str "test.com")] "domain" = some (.str "test.com") ∧
    "test.com" ≠ "" ∧
    generate_field_value "email" (some [("domain", CVal.str "test.com")])
        ⟨fun _ => 0, 0, fun i => i, 0⟩ =
      (.ok (.vStr (userNameString 0 ++ "@" ++ "test.com")), ⟨fun _ => 0, 1, fun i => i, 0⟩) :=
  ⟨by decide, by decide,
    email_domain_override [("domain", CVal.str "test.com")] "test.com"
      ⟨fun _ => 0, 0, fun i => i, 0⟩ (by decide) (by decide)⟩

/-- C5.  `resolveValue` on type "enum" with a string `values` constraint
splits on commas, strips each token, and picks the token indexed by one
draw of the stdlib random source modulo the token count; the result is
always a member of the trimmed token list. -/
theorem enum_values_selection (cs : List (String × CVal)) (sv : String) (σ : RState)
    (hl : lookupC cs "values" = some (.str sv)) :
    ∃ tok σ',
      generate_field_value "enum" (some cs) σ = (.ok (.vStr tok), σ') ∧
      tok = ((pySplitComma sv).map pyStrip).getD
        (σ.globalGen σ.globalPos % ((pySplitComma sv).map pyStrip).length) "" ∧
      tok ∈ (pySplitComma sv).map pyStrip := by
  cases cs with
  | nil => simp [lookupC] at hl
  | cons c0 crest =>
    rcases htoks : (pySplitComma sv).map pyStrip with _ | ⟨t0, ts⟩
    · exact absurd htoks (pyTokens_ne_nil sv)
    · have hgen : generate_field_value "enum" (some (c0 :: crest)) σ =
          (.ok (.vStr ((t0 :: ts).getD
            (σ.globalGen σ.globalPos % (t0 :: ts).length) "")),
            { σ with globalPos := σ.globalPos + 1 }) := by
        unfold generate_field_value
        simp only [show FIELD_REGISTRY "enum" = some (fc "random_element") from rfl,
          Option.getD_some]
        rw [if_neg (by simp),
          if_neg (by simp [show (("enum" : String) == "email") = false from rfl]),
          if_pos (by simp [hl])]
        simp only [hl, htoks]
        rfl
      exact ⟨_, _, hgen, rfl, getD_mem _ _ _ (Nat.mod_lt _ (by simp))⟩

/-- C5 witness: values "A, B ,C" yields the trimmed token "A" at global
draw 0, a member of ["A", "B", "C"]. -/
theorem enum_values_selection_witness :
    lookupC [("values", CVal.str "A, B ,C")] "values" = some (.str "A, B ,C") ∧
    ∃ tok σ',
      generate_field_value "enum" (some [("values", CVal.str "A, B ,C")])
          ⟨fun _ => 0, 0, fun i => i, 0⟩ = (.ok (.vStr tok), σ') ∧
      tok = ((pySplitComma "A, B ,C").map pyStrip).getD
        (0 % ((pySplitComma "A, B ,C").map pyStrip).length) "" ∧
      tok ∈ (pySplitComma "A, B ,C").map pyStrip :=
  ⟨by decide,
    enum_values_selection [("values", CVal.str "A, B ,C")] "A, B ,C"
      ⟨fun _ => 0, 0, fun i => i, 0⟩ (by decide)⟩

/-- C6 counterexample.  With no constraints at all (bare "dob" in a
schema), `if constraints:` is falsy, the min/max-age special case is
skipped, and the generic path calls `date_of_birth()` with faker's own
defaults (ages 0-115): here the implied age is 5, outside [18, 90], so
the registry defaults 18/90 are not applied. -/
theorem dob_without_constraints_cex :
    (generate_field_value "dob" none ⟨fun _ => 5, 0, fun i => i, 0⟩).1 =
        .ok (.vIsoDate 5) ∧
      impliedAge (.vIsoDate 5) = some 5 ∧
      ¬((18 : Int) ≤ 5 ∧ (5 : Int) ≤ 90) :=
  ⟨rfl, rfl, by decide⟩

/-- C6 (amended).  When the constraints mapping is non-empty (so the dob
special case runs), with integer ages `min_age` (default 18) and
`max_age` (default 90) satisfying 0 ≤ min_age ≤ max_age, the generated
birth date implies an age within [min_age, max_age] inclusive. -/
theorem dob_age_within_bounds (cs : List (String × CVal)) (mn mx : Int) (σ : RState)
    (hne : cs ≠ [])
    (hmn : (lookupC cs "min_age").getD (.int 18) = .int mn)
    (hmx : (lookupC cs "max_age").getD (.int 90) = .int mx)
    (h0 : 0 ≤ mn) (hle : mn ≤ mx) :
    ∃ a σ', generate_field_value "dob" (some cs) σ = (.ok (.vDate a), σ') ∧
      impliedAge (.vDate a) = some a ∧ mn ≤ a ∧ a ≤ mx := by
  cases cs with
  | nil => exact absurd rfl hne
  | cons c0 crest =>
    have hgen : generate_field_value "dob" (some (c0 :: crest)) σ =
        callFaker (fc "date_of_birth").locale (fc "date_of_birth").faker_method
          [("minimum_age", CVal.int mn), ("maximum_age", CVal.int mx)] σ := by
      unfold generate_field_value
      simp only [show FIELD_REGISTRY "dob" = some (fc "date_of_birth") from rfl,
        Option.getD_some]
      rw [if_neg (by simp),
        if_neg (by simp [show (("dob" : String) == "email") = false from rfl]),
        if_neg (by simp [show (("dob" : String) == "enum") = false from rfl]),
        if_pos (show (("dob" : String) == "dob") = true from rfl)]
      rw [hmn, hmx]
    have hcall := callFaker_dob_ok (fc "date_of_birth").locale mn mx h0 hle σ
    refine ⟨mn + ((σ.fakerGen σ.fakerPos : Nat) : Int) % (mx - mn + 1),
      { σ with fakerPos := σ.fakerPos + 1 }, hgen.trans hcall, rfl, ?_, ?_⟩
    · have := Int.emod_nonneg ((σ.fakerGen σ.fakerPos : Nat) : Int)
        (show mx - mn + 1 ≠ 0 by omega)
      omega
    · have := Int.emod_lt_of_pos ((σ.fakerGen σ.fakerPos : Nat) : Int)
        (show (0 : Int) < mx - mn + 1 by omega)
      omega

/-- C6 witness: min_age = max_age = 30 forces implied age exactly 30. -/
theorem dob_age_within_bounds_witness :
    [("min_age", CVal.int 30), ("max_age", CVal.int 30)] ≠ ([] : List (String × CVal)) ∧
    (lookupC [("min_age", CVal.int 30), ("max_age", CVal.int 30)] "min_age").getD
      (.int 18) = .int 30 ∧
    (lookupC [("min_age", CVal.int 30), ("max_age", CVal.int 30)] "max_age").getD
      (.int 90) = .int 30 ∧
    (0 : Int) ≤ 30 ∧ (30 : Int) ≤ 30 ∧
    ∃ a σ', generate_field_value "dob"
        (some [("min_age", CVal.int 30), ("max_age", CVal.int 30)])
        ⟨fun _ => 5, 0, fun i => i, 0⟩ = (.ok (.vDate a), σ') ∧
      impliedAge (.vDate a) = some a ∧ (30 : Int) ≤ a ∧ a ≤ 30 :=
  ⟨by decide, by decide, by decide, by decide, by decide,
    dob_age_within_bounds [("min_age", CVal.int 30), ("max_age", CVal.int 30)] 30 30
      ⟨fun _ => 5, 0, fun i => i, 0⟩ (by decide) (by decide) (by decide)
      (by decide) (by decide)⟩

/-- C9.  For a registry field type outside the three special cases, if
the underlying generator rejects the merged caller constraints, the
engine does not raise: the same generator is retried with no arguments
at all and the (iso-normalized) unconstrained value is returned. -/
theorem generic_constraint_fallback (t : String) (cfg : FieldConfig)
    (cs : List (String × CVal)) (σ : RState) (e : GenError)
    (hreg : FIELD_REGISTRY t = some cfg) (hne : cs ≠ [])
    (h1 : t ≠ "email") (h2 : t ≠ "enum") (h3 : t ≠ "dob")
    (hrej : (callFaker cfg.locale cfg.faker_method
        (mergeArgs cfg.faker_args (filterNull cs)) σ).1 = .error e) :
    ∃ w σ',
      callFaker cfg.locale cfg.faker_method []
          (callFaker cfg.locale cfg.faker_method
            (mergeArgs cfg.faker_args (filterNull cs)) σ).2 = (.ok w, σ') ∧
      generate_field_value t (some cs) σ = (.ok (isoConvert w), σ') := by
  cases cs with
  | nil => exact absurd rfl hne
  | cons c0 crest =>
    have hb1 : (t == "email") = false := beq_eq_false_iff_ne.mpr h1
    have hb2 : (t == "enum") = false := beq_eq_false_iff_ne.mpr h2
    have hb3 : (t == "dob") = false := beq_eq_false_iff_ne.mpr h3
    have hgen : generate_field_value t (some (c0 :: crest)) σ =
        genericCall cfg.locale cfg.faker_method
          (mergeArgs cfg.faker_args (filterNull (c0 :: crest))) σ := by
      unfold generate_field_value
      simp only [hreg, Option.getD_some]
      rw [if_neg (by simp), if_neg (by simp [hb1]), if_neg (by simp [hb2]),
        if_neg (by simp [hb3])]
    rcases hc : callFaker cfg.locale cfg.faker_method
        (mergeArgs cfg.faker_args (filterNull (c0 :: crest))) σ with ⟨res, σ1⟩
    rw [hc] at hrej
    cases res with
    | ok v => simp at hrej
    | error e2 =>
      obtain ⟨w, hw⟩ := callFaker_noargs_ok cfg.locale cfg.faker_method σ1
      refine ⟨w, { σ1 with fakerPos := σ1.fakerPos + 1 }, ?_, ?_⟩
      · exact hw
      · rw [hgen]
        unfold genericCall
        rw [hc]
        show (match callFaker cfg.locale cfg.faker_method [] σ1 with
          | (.ok v, σ'') => (Except.ok (isoConvert v), σ'')
          | (.error e, σ'') => (Except.error e, σ'')) = _
        rw [hw]

/-- C9 witness: an unsupported "garbage" keyword on the generic
"integer" type is rejected by `random_int` and silently recovered by the
no-argument retry. -/
theorem generic_constraint_fallback_witness :
    FIELD_REGISTRY "integer" = some (fc "random_int") ∧
    [("garbage", CVal.int 1)] ≠ ([] : List (String × CVal)) ∧
    ("integer" : String) ≠ "email" ∧ ("integer" : String) ≠ "enum" ∧
    ("integer" : String) ≠ "dob" ∧
    (callFaker (fc "random_int").locale (fc "random_int").faker_method
        (mergeArgs (fc "random_int").faker_args (filterNull [("garbage", CVal.int 1)]))
        ⟨fun _ => 0, 0, fun i => i, 0⟩).1 =
      .error (.typeError ("unexpected keyword argument for " ++ "random_int")) ∧
    ∃ w σ',
      callFaker (fc "random_int").locale (fc "random_int").faker_method []
          (callFaker (fc "random_int").locale (fc "random_int").faker_method
            (mergeArgs (fc "random_int").faker_args (filterNull [("garbage", CVal.int 1)]))
            ⟨fun _ => 0, 0, fun i => i, 0⟩).2 = (.ok w, σ') ∧
      generate_field_value "integer" (some [("garbage", CVal.int 1)])
          ⟨fun _ => 0, 0, fun i => i, 0⟩ = (.ok (isoConvert w), σ') :=
  ⟨by decide, by decide, by decide, by decide, by decide, rfl,
    generic_constraint_fallback "integer" (fc "random_int") [("garbage", CVal.int 1)]
      ⟨fun _ => 0, 0, fun i => i, 0⟩
      (.typeError ("unexpected keyword argument for " ++ "random_int"))
      (by decide) (by decide) (by decide) (by decide) (by decide) rfl⟩
